import Mathlib

/-!
Verification of the employee-directory service (`src/main.py`).

The program is a FastAPI application with two store-backed endpoints:
`GET /api/employees` (`list_employees`) translates query parameters into a
MongoDB-style filter, fetches capped results and normalizes each document,
and `POST /api/employees/seed` (`seed_employees`) inserts a fixed sample set
one record at a time.  The diagnostic endpoint `GET /test` (`test_database`)
reports store availability without failing.

The `database` module (the document store: `db`, `get_documents`,
`create_document`) is not part of the repository's sources; its behaviour is
modelled from the specification where needed, and every such definition is
marked `Modelled from the spec:` in its doc comment.  Everything else is a
direct translation of `src/main.py`.
-/

namespace DirectoryService

/-- A MongoDB ObjectId, modelled as a natural number; its string form is the
24-hex-digit representation (`str(ObjectId(...))` in Python). -/
abbrev ObjectId := Nat

/-- Hexadecimal digit character for a value `0 ≤ n < 16`. -/
def hexDigit (n : Nat) : Char :=
  if n < 10 then Char.ofNat (48 + n) else Char.ofNat (87 + n)

/-- The 24-hex-digit string representation of an ObjectId, most significant
digit first (Python `str` of a Mongo ObjectId). -/
def oidStr (o : ObjectId) : String :=
  String.mk ((List.range 24).map fun i => hexDigit (o / 16 ^ (23 - i) % 16))

/-- A stored/returned employee document.  The store is schema-less: every
field is optional.  `_id` is the store's raw internal identifier; `id` is the
API-facing identifier written by the normalizer.  Fields are those appearing
in `src/main.py` (filter construction and the seed sample set). -/
structure Document where
  _id : Option ObjectId := none
  id : Option String := none
  firstName : Option String := none
  lastName : Option String := none
  full_name : Option String := none
  title : Option String := none
  department : Option String := none
  email : Option String := none
  phone : Option String := none
  office : Option String := none
  location : Option String := none
  photoUrl : Option String := none
  bio : Option String := none
  tags : Option (List String) := none
  isActive : Option Bool := none
deriving DecidableEq, Repr

/-- Python `str(d.get("_id"))`: `str(None)` is the string `"None"`, and the
string form of an ObjectId is its hex representation. -/
def pyStrOfOptionalId : Option ObjectId → String
  | none => "None"
  | some o => oidStr o

/-- The record normalizer, `src/main.py` lines 126-128:
`d["id"] = str(d.get("_id")); d.pop("_id", None)`. -/
def normalizeDoc (d : Document) : Document :=
  { d with id := some (pyStrOfOptionalId d._id), _id := none }

/-- Field lookup by name, as the store evaluates a single-field clause of the
filter dictionary against a document. -/
def getField (d : Document) : String → Option String
  | "firstName" => d.firstName
  | "lastName" => d.lastName
  | "full_name" => d.full_name
  | "title" => d.title
  | "department" => d.department
  | "email" => d.email
  | "phone" => d.phone
  | "office" => d.office
  | "location" => d.location
  | "photoUrl" => d.photoUrl
  | "bio" => d.bio
  | _ => none

/-- Boolean test that the list `p` occurs at the front of `l`. -/
def charsAtFront : List Char → List Char → Bool
  | [], _ => true
  | _ :: _, [] => false
  | a :: as, b :: bs => a == b && charsAtFront as bs

/-- Modelled from the spec: case-insensitive substring containment, the
recommended literal reading of the store's `$regex .. $options "i"` clause
(the `database` module evaluating filters is not under `src/`). -/
def strContainsCI (hay pat : String) : Bool :=
  let h := hay.data.map Char.toLower
  let p := pat.data.map Char.toLower
  (List.range (h.length + 1)).any fun i => charsAtFront p (h.drop i)

/-- The names searched by the free-text `$or` clause, in the order of
`src/main.py` lines 98-107. -/
def searchFields : List String :=
  ["firstName", "lastName", "full_name", "title",
   "department", "email", "phone", "location"]

/-- The `$or` value built by `list_employees` for a free-text query `q`:
one case-insensitive regex clause `(field, pattern)` per searched field
(`src/main.py` lines 98-107). -/
def buildOr (q : String) : List (String × String) :=
  [("firstName", q), ("lastName", q), ("full_name", q), ("title", q),
   ("department", q), ("email", q), ("phone", q), ("location", q)]

/-- The filter dictionary `filter_query` built by `list_employees`:
an optional `$or` list of regex clauses, optional exact-match values for
`department`, `location`, `isActive`, and an optional `$all` tag list. -/
structure FilterQuery where
  orClause : Option (List (String × String)) := none
  department : Option String := none
  location : Option String := none
  isActive : Option Bool := none
  tagsAll : Option (List String) := none
deriving DecidableEq, Repr

/-- Python `str.strip()` on the underlying characters: drop whitespace from
both ends. -/
def trimChars (cs : List Char) : List Char :=
  ((cs.dropWhile Char.isWhitespace).reverse.dropWhile Char.isWhitespace).reverse

/-- Python `str.split(",")` on the underlying characters: split at every
comma, keeping empty pieces (`"".split(",")` is `[""]`). -/
def pySplitComma : List Char → List (List Char)
  | [] => [[]]
  | c :: rest =>
      let r := pySplitComma rest
      if c == ',' then [] :: r
      else
        match r with
        | [] => [[c]]
        | g :: gs => (c :: g) :: gs

/-- Tag-string parsing, `src/main.py` line 119:
`[t.strip() for t in tags.split(",") if t.strip()]` — split on commas, trim
each piece, keep the non-empty ones. -/
def parseTags (t : String) : List String :=
  ((pySplitComma t.data).map fun g => String.mk (trimChars g)).filter
    fun s => s != ""

/-- Filter construction, `src/main.py` lines 94-121.  Python truthiness:
`if q:` is taken when `q` is neither `None` nor the empty string; `isActive`
is compared against `None` explicitly. -/
def buildFilter (q department location : Option String)
    (isActive : Option Bool) (tags : Option String) : FilterQuery :=
  { orClause :=
      match q with
      | some s => if s != "" then some (buildOr s) else none
      | none => none
  , department :=
      match department with
      | some s => if s != "" then some s else none
      | none => none
  , location :=
      match location with
      | some s => if s != "" then some s else none
      | none => none
  , isActive := isActive
  , tagsAll :=
      match tags with
      | some t =>
          if t != "" then
            (if (parseTags t).isEmpty then none else some (parseTags t))
          else none
      | none => none }

/-- Modelled from the spec: evaluation of one `$regex`/`"i"` clause by the
store — the named field must contain the pattern as a case-insensitive
substring; an absent field never matches. -/
def regexClauseHolds (d : Document) (c : String × String) : Bool :=
  match getField d c.1 with
  | some v => strContainsCI v c.2
  | none => false

/-- Modelled from the spec: the store's evaluation of the `$or` list — the
document matches if any single clause matches. -/
def evalOrClause (d : Document) (cs : List (String × String)) : Bool :=
  cs.any fun c => regexClauseHolds d c

/-- Modelled from the spec: the store's evaluation of the `tags: $all`
clause — the record's tag set must contain every listed value; an absent
`tags` field matches no non-empty list. -/
def evalTagsClause (d : Document) : Option (List String) → Bool
  | some tl => tl.all fun t => (d.tags.getD []).contains t
  | none => true

/-- Modelled from the spec: the store's evaluation of the whole filter
dictionary — all clauses combined conjunctively. -/
def matchesFilter (d : Document) (f : FilterQuery) : Bool :=
  (match f.orClause with
   | some cs => evalOrClause d cs
   | none => true) &&
  (match f.department with
   | some v => d.department == some v
   | none => true) &&
  (match f.location with
   | some v => d.location == some v
   | none => true) &&
  (match f.isActive with
   | some b => d.isActive == some b
   | none => true) &&
  evalTagsClause d f.tagsAll

/-- Modelled from the spec: the store's find operation — "find documents in
a named collection matching a filter expression, capped at N results".  The
collection is the list of stored documents. -/
def get_documents (store : List Document) (f : FilterQuery) (limit : Int) :
    List Document :=
  ((store.filter fun d => matchesFilter d f).take limit.toNat)

/-- Query parameters of `GET /api/employees`; every parameter is optional at
the HTTP layer (`limit` defaults to 200 inside the endpoint model, matching
`Query(default=200, le=500)`). -/
structure QueryParams where
  q : Option String := none
  department : Option String := none
  location : Option String := none
  isActive : Option Bool := none
  tags : Option String := none
  limit : Option Int := none
deriving DecidableEq, Repr

/-- Errors visible to the client: the framework's parameter-validation
rejection (a 422 client error, raised before the handler body runs) and the
handler's `HTTPException`. -/
inductive ApiError where
  | validationError : ApiError
  | httpError : Nat → String → ApiError
deriving DecidableEq, Repr

/-- Success body of `GET /api/employees`. -/
structure ListResp where
  items : List Document
  count : Nat
deriving DecidableEq, Repr

/-- Endpoint `list_employees` (`src/main.py` lines 82-130).  The framework validates
`limit` (`le=500`) before the handler body; the handler then checks store
availability, builds the filter, fetches capped results, normalizes each
document in place, and returns items with their count.  `db` is `none` when
the store handle is absent. -/
def list_employees (db : Option (List Document)) (p : QueryParams) :
    Except ApiError ListResp :=
  let lim := p.limit.getD 200
  if 500 < lim then
    .error .validationError
  else
    match db with
    | none => .error (.httpError 500 "Database not configured")
    | some store =>
        let fq := buildFilter p.q p.department p.location p.isActive p.tags
        let docs := get_documents store fq lim
        let items := docs.map normalizeDoc
        .ok { items := items, count := items.length }

/-- The fixed sample set inserted by the seed endpoint
(`src/main.py` lines 137-183). -/
def sampleEmployees : List Document :=
  [ { firstName := some "أمين", lastName := some "بن صالح",
      full_name := some "أمين بن صالح", title := some "مهندس نظم",
      department := some "IT", email := some "amine.bensaleh@example.com",
      phone := some "+213560000001", office := some "D3-201",
      location := some "Bab Ezzouar",
      photoUrl := some "https://i.pravatar.cc/150?img=1",
      bio := some "خبير في البنية التحتية والشبكات.",
      tags := some ["Linux", "Networking", "DevOps"],
      isActive := some true }
  , { firstName := some "ليلى", lastName := some "قاسم",
      full_name := some "ليلى قاسم", title := some "موارد بشرية",
      department := some "HR", email := some "leila.kacem@example.com",
      phone := some "+213560000002", office := some "D3-105",
      location := some "Bab Ezzouar",
      photoUrl := some "https://i.pravatar.cc/150?img=5",
      bio := some "تطوير المواهب وثقافة المؤسسة.",
      tags := some ["Recruitment", "Culture"],
      isActive := some true }
  , { firstName := some "مروان", lastName := some "شرقي",
      full_name := some "مروان شرقي", title := some "محاسب",
      department := some "Finance", email := some "marouane.cherki@example.com",
      phone := some "+213560000003", office := some "D3-009",
      location := some "Bab Ezzouar",
      photoUrl := some "https://i.pravatar.cc/150?img=8",
      bio := some "إدارة الميزانيات والتقارير.",
      tags := some ["Accounting", "Excel"],
      isActive := some true } ]

/-- Success body of `POST /api/employees/seed`. -/
structure SeedResp where
  inserted : Nat
deriving DecidableEq, Repr

/-- The seed loop (`src/main.py` lines 185-191): each record's insertion is
attempted inside `try/except Exception: pass`, and `inserted` counts the
successes.  `outcome i` says whether the store's `create_document` succeeds
on the `i`-th sample record (`create_document` is not under `src/`; per the
spec it inserts one document or fails). -/
def seedInserted (outcome : Nat → Bool) : Nat :=
  (List.range sampleEmployees.length).foldl
    (fun acc i => if outcome i then acc + 1 else acc) 0

/-- Endpoint `seed_employees` (`src/main.py` lines 132-193): rejects when the store
handle is absent, otherwise inserts the sample records one at a time,
swallowing per-record failures, and reports the success count. -/
def seed_employees (db : Option (List Document)) (outcome : Nat → Bool) :
    Except ApiError SeedResp :=
  match db with
  | none => .error (.httpError 500 "Database not configured")
  | some _ => .ok { inserted := seedInserted outcome }

/-- What the `/test` handler can observe of an available store handle: its
optional `name` attribute and the result of `list_collection_names()`
(which may raise). -/
structure DbInfo where
  name : Option String := none
  listCollectionNamesResult : Except String (List String) := .ok []

/-- Response body of `GET /test` (`src/main.py` lines 30-37): always
returned with success status — the handler never raises. -/
structure TestResp where
  backend : String
  database : String
  database_url : Option String
  database_name : Option String
  connection_status : String
  collections : List String
deriving DecidableEq, Repr

/-- Endpoint `test_database` (`src/main.py` lines 27-69): builds a diagnostic body,
upgrading its fields as checks succeed; `database_url` and `database_name`
are finally overwritten from the environment flags.  A total function: every
path returns a body, none raises. -/
def test_database (db : Option DbInfo) (urlSet nameSet : Bool) : TestResp :=
  let r0 : TestResp :=
    { backend := "✅ Running"
    , database := "❌ Not Available"
    , database_url := none
    , database_name := none
    , connection_status := "Not Connected"
    , collections := [] }
  let r1 :=
    match db with
    | some info =>
        let r :=
          { r0 with
              database := "✅ Available"
            , database_url := some "✅ Configured"
            , database_name := some (info.name.getD "✅ Connected")
            , connection_status := "Connected" }
        match info.listCollectionNamesResult with
        | .ok cols =>
            { r with collections := cols.take 10
                   , database := "✅ Connected & Working" }
        | .error e =>
            { r with database := "⚠️  Connected but Error: " ++ e.take 50 }
    | none => { r0 with database := "⚠️  Available but not initialized" }
  { r1 with
      database_url := some (if urlSet then "✅ Set" else "❌ Not Set")
    , database_name := some (if nameSet then "✅ Set" else "❌ Not Set") }

end DirectoryService

namespace DirectoryService

/-! ## Helper lemmas -/

/-- The string form of an ObjectId has 24 characters, hence is never the
empty string. -/
theorem oidStr_ne_empty (o : ObjectId) : oidStr o ≠ "" := by
  intro h
  have h2 : (oidStr o).data.length = 0 := by rw [h]; rfl
  simp [oidStr] at h2

/-- A single regex clause of the `$or` list holds exactly when the named
field is present and contains the pattern case-insensitively. -/
theorem regexClauseHolds_iff (d : Document) (f s : String) :
    regexClauseHolds d (f, s) = true ↔
      ∃ v, getField d f = some v ∧ strContainsCI v s = true := by
  cases hg : getField d f <;> simp [regexClauseHolds, hg]

/-- Inversion of a successful `list_employees` call: the store handle was
present, the (defaulted) limit passed validation, and the response is the
normalized image of the capped query result. -/
theorem list_ok_inv (db : Option (List Document)) (p : QueryParams) (r : ListResp)
    (h : list_employees db p = .ok r) :
    ∃ store, db = some store ∧ ¬ 500 < p.limit.getD 200 ∧
      r = { items := (get_documents store
              (buildFilter p.q p.department p.location p.isActive p.tags)
              (p.limit.getD 200)).map normalizeDoc
          , count := ((get_documents store
              (buildFilter p.q p.department p.location p.isActive p.tags)
              (p.limit.getD 200)).map normalizeDoc).length } := by
  unfold list_employees at h
  by_cases hgt : 500 < p.limit.getD 200
  · simp [hgt] at h
  · rw [if_neg hgt] at h
    cases db with
    | none => simp at h
    | some store =>
        refine ⟨store, rfl, hgt, ?_⟩
        exact (Except.ok.inj h.symm)

/-- Two parameter sets producing the same filter and limit produce the same
response. -/
theorem list_employees_filter_congr (db : Option (List Document)) (p₁ p₂ : QueryParams)
    (hf : buildFilter p₁.q p₁.department p₁.location p₁.isActive p₁.tags =
          buildFilter p₂.q p₂.department p₂.location p₂.isActive p₂.tags)
    (hl : p₁.limit = p₂.limit) :
    list_employees db p₁ = list_employees db p₂ := by
  unfold list_employees
  rw [hf, hl]

/-! ## Claim theorems -/

/-- Claim C1: when the free-text parameter `q` is present and non-empty, the
query translator emits a single `$or` clause over exactly the eight fields
`firstName`, `lastName`, `full_name`, `title`, `department`, `email`,
`phone`, `location`, and a record is selected by that clause if and only if
at least one of these fields contains `q` as a case-insensitive substring. -/
theorem c1_free_text_or_clause (p : QueryParams) (s : String) (d : Document)
    (hq : p.q = some s) (hne : s ≠ "") :
    (buildFilter p.q p.department p.location p.isActive p.tags).orClause
        = some (buildOr s) ∧
    buildOr s = searchFields.map (fun f => (f, s)) ∧
    (evalOrClause d (buildOr s) = true ↔
      ∃ f ∈ searchFields, ∃ v, getField d f = some v ∧ strContainsCI v s = true) := by
  refine ⟨by simp [buildFilter, hq, hne], rfl, ?_⟩
  rw [evalOrClause, List.any_eq_true]
  constructor
  · rintro ⟨c, hc, hh⟩
    obtain ⟨f, hf, rfl⟩ :=
      List.mem_map.1 (show c ∈ searchFields.map (fun f => (f, s)) from hc)
    exact ⟨f, hf, (regexClauseHolds_iff d f s).1 hh⟩
  · rintro ⟨f, hf, hv⟩
    refine ⟨(f, s), ?_, (regexClauseHolds_iff d f s).2 hv⟩
    exact (show ((f, s) ∈ searchFields.map fun f => (f, s)) from
      List.mem_map.2 ⟨f, hf, rfl⟩)

/-- Claim C1 witness: concrete instantiation at `q = "HR"` against a record
whose department is `"hr dept"`. -/
theorem c1_witness :
    ({ q := some "HR" } : QueryParams).q = some "HR" ∧
    ("HR" : String) ≠ "" ∧
    ((buildFilter ({ q := some "HR" } : QueryParams).q none none none none).orClause
        = some (buildOr "HR") ∧
     buildOr "HR" = searchFields.map (fun f => (f, "HR")) ∧
     (evalOrClause { department := some "hr dept" } (buildOr "HR") = true ↔
       ∃ f ∈ searchFields, ∃ v,
         getField ({ department := some "hr dept" } : Document) f = some v ∧
         strContainsCI v "HR" = true)) :=
  ⟨rfl, by decide,
   c1_free_text_or_clause { q := some "HR" } "HR" { department := some "hr dept" }
     rfl (by decide)⟩

/-- Claim C2 counterexample: the normalizer is not idempotent.  Normalizing
a document whose `_id` is ObjectId 0 yields `id = "000…0"` and no `_id`;
normalizing the result again overwrites `id` with `str(None) = "None"`, so
normalizing twice differs from normalizing once. -/
theorem c2_counterexample :
    normalizeDoc (normalizeDoc { _id := some 0 }) ≠ normalizeDoc { _id := some 0 } := by
  decide

/-- Claim C2 (amended): applying the normalization step to an
already-normalized record (one with no `_id`) leaves every field unchanged
except `id`, which is overwritten with the string `"None"` — Python's
string form of the absent identifier; normalizing twice therefore equals
normalizing once only when the identifier's string form is `"None"`. -/
theorem c2_amended_renormalize (d : Document) (h : d._id = none) :
    normalizeDoc d = { d with id := some "None" } := by
  simp [normalizeDoc, h, pyStrOfOptionalId]

/-- Claim C2 witness: re-normalizing a concrete `_id`-free record sets its
`id` field to `"None"` and changes nothing else. -/
theorem c2_witness :
    ({ department := some "HR" } : Document)._id = none ∧
    normalizeDoc { department := some "HR" }
      = { ({ department := some "HR" } : Document) with id := some "None" } :=
  ⟨rfl, c2_amended_renormalize { department := some "HR" } rfl⟩

/-- Claim C3: the `tags` parameter is split on commas, each piece is
trimmed and empty pieces are discarded; when pieces remain the filter
carries them as a `$all` clause whose evaluation requires the record's tag
set to contain every listed value (so a record holding only some of them is
excluded), and when no piece remains no tags clause is added. -/
theorem c3_tags_clause (p : QueryParams) (t : String) (d : Document)
    (ht : p.tags = some t) :
    ((buildFilter p.q p.department p.location p.isActive p.tags).tagsAll
        = if parseTags t = [] then none else some (parseTags t)) ∧
    (∀ tl, evalTagsClause d (some tl) = true ↔ ∀ x ∈ tl, x ∈ d.tags.getD []) ∧
    (parseTags t ≠ [] →
      matchesFilter d (buildFilter p.q p.department p.location p.isActive p.tags) = true →
      ∀ x ∈ parseTags t, x ∈ d.tags.getD []) := by
  have htags : ∀ tl, evalTagsClause d (some tl) = true ↔ ∀ x ∈ tl, x ∈ d.tags.getD [] := by
    intro tl
    simp [evalTagsClause, List.all_eq_true]
  have hbuilt : (buildFilter p.q p.department p.location p.isActive p.tags).tagsAll
      = if parseTags t = [] then none else some (parseTags t) := by
    by_cases h0 : t = ""
    · subst h0
      simp [buildFilter, ht]
      decide
    · simp [buildFilter, ht, h0, List.isEmpty_iff]
  refine ⟨hbuilt, htags, fun hne hm => ?_⟩
  have h5 : evalTagsClause d
      (buildFilter p.q p.department p.location p.isActive p.tags).tagsAll = true := by
    simp [matchesFilter, Bool.and_eq_true] at hm
    exact hm.2
  rw [hbuilt, if_neg hne] at h5
  exact (htags (parseTags t)).1 h5

/-- Claim C3 witness: `"Linux, DevOps,,"` parses to `["Linux", "DevOps"]`,
the clause carries both values, and a record tagged only `["Linux"]` is
constrained to contain both. -/
theorem c3_witness :
    ({ tags := some "Linux, DevOps,," } : QueryParams).tags = some "Linux, DevOps,," ∧
    parseTags "Linux, DevOps,," = ["Linux", "DevOps"] ∧
    ((buildFilter none none none none (some "Linux, DevOps,,")).tagsAll
        = if parseTags "Linux, DevOps,," = [] then none
          else some (parseTags "Linux, DevOps,,")) ∧
    (∀ tl, evalTagsClause { tags := some ["Linux"] } (some tl) = true ↔
        ∀ x ∈ tl, x ∈ (({ tags := some ["Linux"] } : Document)).tags.getD []) ∧
    (parseTags "Linux, DevOps,," ≠ [] →
      matchesFilter { tags := some ["Linux"] }
        (buildFilter none none none none (some "Linux, DevOps,,")) = true →
      ∀ x ∈ parseTags "Linux, DevOps,,",
        x ∈ (({ tags := some ["Linux"] } : Document)).tags.getD []) :=
  ⟨rfl, by decide,
   c3_tags_clause { tags := some "Linux, DevOps,," } "Linux, DevOps,,"
     { tags := some ["Linux"] } rfl⟩

/-- Claim C4: a successful list response never holds more items than the
requested limit (200 when none is supplied) and never more than 500 — the
store's find is capped at the limit it is passed. -/
theorem c4_limit_bound (db : Option (List Document)) (p : QueryParams) (r : ListResp)
    (h : list_employees db p = .ok r) :
    r.count ≤ (p.limit.getD 200).toNat ∧ r.count ≤ 500 := by
  obtain ⟨store, -, hle, hr⟩ := list_ok_inv db p r h
  subst hr
  have hlen : (List.map normalizeDoc (get_documents store
      (buildFilter p.q p.department p.location p.isActive p.tags)
      (p.limit.getD 200))).length ≤ (p.limit.getD 200).toNat := by
    rw [List.length_map, get_documents]
    exact List.length_take_le _ _
  refine ⟨hlen, le_trans hlen ?_⟩
  omega

/-- Claim C4 witness: an empty store with default parameters yields zero
items, within both bounds. -/
theorem c4_witness :
    list_employees (some []) ({} : QueryParams) = .ok { items := [], count := 0 } ∧
    ({ items := [], count := 0 } : ListResp).count
        ≤ ((({} : QueryParams).limit.getD 200).toNat) ∧
    ({ items := [], count := 0 } : ListResp).count ≤ 500 := by
  have h : list_employees (some []) ({} : QueryParams)
      = .ok { items := [], count := 0 } := rfl
  exact ⟨h, c4_limit_bound (some []) {} _ h⟩

/-- Claim C5: a supplied limit strictly above 500 is rejected with the
framework's validation error, for every store state — in particular before
any store interaction, with no partial result. -/
theorem c5_limit_rejected (db : Option (List Document)) (p : QueryParams) (l : Int)
    (hl : p.limit = some l) (hgt : 500 < l) :
    list_employees db p = .error .validationError := by
  unfold list_employees
  rw [hl]
  simp [Option.getD, hgt]

/-- Claim C5 witness: `limit = 501` is rejected. -/
theorem c5_witness :
    ({ limit := some 501 } : QueryParams).limit = some 501 ∧
    (500 : Int) < 501 ∧
    list_employees none { limit := some 501 } = .error .validationError :=
  ⟨rfl, by decide, c5_limit_rejected none { limit := some 501 } 501 rfl (by decide)⟩

/-- Claim C6: with the store handle absent, the list and seed operations
fail with the 500 service error, while `/test` returns its diagnostic body
describing the unavailability instead of failing. -/
theorem c6_store_unavailable (p : QueryParams) (outcome : Nat → Bool)
    (urlSet nameSet : Bool) (hl : p.limit.getD 200 ≤ 500) :
    list_employees none p = .error (.httpError 500 "Database not configured") ∧
    seed_employees none outcome = .error (.httpError 500 "Database not configured") ∧
    (test_database none urlSet nameSet).database = "⚠️  Available but not initialized" ∧
    (test_database none urlSet nameSet).connection_status = "Not Connected" := by
  refine ⟨?_, rfl, rfl, rfl⟩
  unfold list_employees
  rw [if_neg (not_lt.2 hl)]

/-- Claim C6 witness: concrete instantiation with default parameters. -/
theorem c6_witness :
    (({} : QueryParams).limit.getD 200 ≤ 500) ∧
    list_employees none {} = .error (.httpError 500 "Database not configured") ∧
    seed_employees none (fun _ => false)
        = .error (.httpError 500 "Database not configured") ∧
    (test_database none true true).database = "⚠️  Available but not initialized" ∧
    (test_database none true true).connection_status = "Not Connected" :=
  ⟨by decide, c6_store_unavailable {} (fun _ => false) true true (by decide)⟩

/-- Claim C7: for every sequence of per-record insertion outcomes the seed
operation returns normally (a failure never aborts the loop or raises), and
the reported count equals the number of successful insertions — the full
sample size 3 when every insertion succeeds. -/
theorem c7_seed_outcomes (store : List Document) (outcome : Nat → Bool) :
    sampleEmployees.length = 3 ∧
    seed_employees (some store) outcome = .ok { inserted := seedInserted outcome } ∧
    seedInserted outcome = ((List.range 3).filter fun i => outcome i).length ∧
    ((∀ i, i < 3 → outcome i = true) → seedInserted outcome = 3) := by
  have hlen : sampleEmployees.length = 3 := rfl
  have hins : seedInserted outcome = ((List.range 3).filter fun i => outcome i).length := by
    unfold seedInserted
    rw [hlen]
    rw [show List.range 3 = [0, 1, 2] from rfl]
    cases h0 : outcome 0 <;> cases h1 : outcome 1 <;> cases h2 : outcome 2 <;>
      simp [h0, h1, h2, List.foldl, List.filter]
  refine ⟨hlen, rfl, hins, fun h => ?_⟩
  rw [hins]
  simp [List.filter, h 0 (by norm_num), h 1 (by norm_num), h 2 (by norm_num)]

/-- Claim C7 witness: with every insertion succeeding the reported count is
the sample size 3. -/
theorem c7_witness :
    seed_employees (some []) (fun _ => true) = .ok { inserted := 3 } := by
  have h := c7_seed_outcomes [] (fun _ => true)
  have h4 := h.2.2.2 (fun i _ => rfl)
  rw [h.2.1, h4]

/-- Claim C8: when every stored document carries a store-assigned `_id`,
every item of a successful list response has no `_id` field and an `id`
field holding a non-empty string. -/
theorem c8_normalized_ids (db : Option (List Document)) (store : List Document)
    (p : QueryParams) (r : ListResp)
    (hdb : db = some store)
    (hid : ∀ d ∈ store, ∃ o, d._id = some o)
    (h : list_employees db p = .ok r) :
    ∀ d ∈ r.items, d._id = none ∧ ∃ s, d.id = some s ∧ s ≠ "" := by
  obtain ⟨store', hdb', -, hr⟩ := list_ok_inv db p r h
  rw [hdb] at hdb'
  injection hdb' with he
  subst he
  subst hr
  intro d hd
  obtain ⟨d', hd', rfl⟩ := List.mem_map.1 hd
  have hstore : d' ∈ store := by
    have h1 : d' ∈ (store.filter fun x => matchesFilter x
        (buildFilter p.q p.department p.location p.isActive p.tags)) :=
      List.mem_of_mem_take hd'
    exact (List.mem_filter.1 h1).1
  obtain ⟨o, ho⟩ := hid d' hstore
  refine ⟨rfl, oidStr o, ?_, oidStr_ne_empty o⟩
  simp [normalizeDoc, pyStrOfOptionalId, ho]

/-- Claim C8 witness: a one-document store with ObjectId 5 yields one item
with `_id` removed and a non-empty `id`. -/
theorem c8_witness :
    (some [({ _id := some 5 } : Document)] = some [{ _id := some 5 }]) ∧
    (∀ d ∈ [({ _id := some 5 } : Document)], ∃ o, d._id = some o) ∧
    list_employees (some [{ _id := some 5 }]) {}
        = .ok { items := [normalizeDoc { _id := some 5 }], count := 1 } ∧
    (∀ d ∈ ({ items := [normalizeDoc { _id := some 5 }], count := 1 } : ListResp).items,
      d._id = none ∧ ∃ s, d.id = some s ∧ s ≠ "") := by
  have h : list_employees (some [({ _id := some 5 } : Document)]) {}
      = .ok { items := [normalizeDoc { _id := some 5 }], count := 1 } := rfl
  refine ⟨rfl, ?_, h, ?_⟩
  · intro d hd
    rw [List.mem_singleton] at hd
    subst hd
    exact ⟨5, rfl⟩
  · refine c8_normalized_ids (some [{ _id := some 5 }]) [{ _id := some 5 }] {} _ rfl ?_ h
    intro d hd
    rw [List.mem_singleton] at hd
    subst hd
    exact ⟨5, rfl⟩

/-- Claim C9: every successful list response reports a `count` equal to the
number of returned items. -/
theorem c9_count_eq_items (db : Option (List Document)) (p : QueryParams) (r : ListResp)
    (h : list_employees db p = .ok r) :
    r.count = r.items.length := by
  obtain ⟨store, -, -, hr⟩ := list_ok_inv db p r h
  subst hr
  rfl

/-- Claim C9 witness: a one-document store filtered by department gives one
item and count 1. -/
theorem c9_witness :
    list_employees (some [{ department := some "IT" }]) ({ department := some "IT" } : QueryParams)
        = .ok { items := [normalizeDoc { department := some "IT" }], count := 1 } ∧
    ({ items := [normalizeDoc { department := some "IT" }], count := 1 } : ListResp).count
        = ({ items := [normalizeDoc { department := some "IT" }], count := 1 } : ListResp).items.length := by
  have h : list_employees (some [({ department := some "IT" } : Document)])
      ({ department := some "IT" } : QueryParams)
      = .ok { items := [normalizeDoc { department := some "IT" }], count := 1 } := rfl
  exact ⟨h, c9_count_eq_items _ _ _ h⟩

/-- Claim C10: supplying the empty string for `q`, `department`, `location`
or `tags` adds no filter clause — the response is identical to the one for
the absent parameter, for every store state and every remaining
parameter combination. -/
theorem c10_empty_params (db : Option (List Document)) (p : QueryParams) :
    list_employees db { p with q := some "" } = list_employees db { p with q := none } ∧
    list_employees db { p with department := some "" }
        = list_employees db { p with department := none } ∧
    list_employees db { p with location := some "" }
        = list_employees db { p with location := none } ∧
    list_employees db { p with tags := some "" }
        = list_employees db { p with tags := none } := by
  refine ⟨?_, ?_, ?_, ?_⟩ <;>
    exact list_employees_filter_congr db _ _ (by simp [buildFilter]) rfl

end DirectoryService
